import Mathlib

/-!
Verification of the tdxplot report-ingestion pipeline.

Shallow embedding of `src/report.py` (constants `STANDARD_FIELDS` and
`TIME_FORMATS`, the `Report` class with `__init__`, `populate` and
`clean_ticket_dict`, and the helpers `get_fields_present` and
`get_time_format`).  Raw CSV rows are association lists from field names to
strings; cleaned rows map field names to typed values.  Python exceptions
are modelled with an explicit error type, and the open/close calls on the
CSV file handle are tracked by an explicit boolean so that resource claims
can be stated.

The `Diagnosis` enumeration and the `Organization` class live in
`ticketclasses.py` and `organization.py`, which are not part of the sources
being verified; they are modelled from the specification where noted.
-/

set_option autoImplicit false

deriving instance DecidableEq for Except

namespace Tdxplot

/-! ## Basic character utilities -/

def isDigitCh (c : Char) : Bool := '0' ≤ c && c ≤ '9'

def dval (c : Char) : Nat := c.toNat - 48

def isWsCh (c : Char) : Bool := c = ' ' || c = '\t' || c = '\n' || c = '\r'

/-! ## Python `str.split(", ")` and `", ".join(...)`

`clean_ticket_dict` splits the "Classroom Problem Types" cell on the literal
two-character delimiter `", "`.  `splitCS` performs the full left-to-right
split (Python semantics: a string with no delimiter yields a single token,
which may be empty), and `joinCS` is the inverse `", ".join`. -/

/-- Left-to-right scan: on the delimiter `", "` close the current token
(accumulated in reverse) and continue after it, otherwise push the head
character onto the current token. -/
def splitCSAux : List Char → List Char → List (List Char)
  | [], cur => [cur.reverse]
  | [c], cur => [(c :: cur).reverse]
  | c1 :: c2 :: rest, cur =>
    if c1 = ',' ∧ c2 = ' ' then cur.reverse :: splitCSAux rest []
    else splitCSAux (c2 :: rest) (c1 :: cur)

def splitCS (s : List Char) : List (List Char) := splitCSAux s []

def joinCS : List (List Char) → List Char
  | [] => []
  | [x] => x
  | x :: y :: xs => x ++ ',' :: ' ' :: joinCS (y :: xs)

/-! ## Python `int(...)`

Model of the `int` constructor applied to a string, as used for the "ID"
field: surrounding whitespace is stripped, an optional sign is allowed, and
the body must be decimal digits (single underscores between digits are
accepted, as in CPython).  Anything else raises `ValueError` (here:
`none`). -/

def stripWs (s : List Char) : List Char :=
  ((s.dropWhile isWsCh).reverse.dropWhile isWsCh).reverse

def digitsUSAux : List Char → Nat → Option Nat
  | [], acc => some acc
  | '_' :: rest, acc =>
    match rest with
    | c :: rest2 => if isDigitCh c then digitsUSAux rest2 (10 * acc + dval c) else none
    | [] => none
  | c :: rest, acc => if isDigitCh c then digitsUSAux rest (10 * acc + dval c) else none

def digitsUS : List Char → Option Nat
  | [] => none
  | c :: rest => if isDigitCh c then digitsUSAux rest (dval c) else none

def pyInt (s : String) : Option Int :=
  match stripWs s.data with
  | '+' :: rest => (digitsUS rest).map Int.ofNat
  | '-' :: rest => (digitsUS rest).map (fun n => -(n : Int))
  | rest => (digitsUS rest).map Int.ofNat

/-! ## The Diagnosis enumeration

Modelled from the spec: the `Diagnosis` enumeration is defined in
`ticketclasses.py`, which is not among the sources under verification.  The
spec fixes only that it is a fixed enumeration of classroom-problem
categories, that `Diagnosis(token)` succeeds exactly on the member
values of the enumeration, and that a canonical enum-to-string mapping exists; the
member list below is representative. -/

inductive Diagnosis where
  | projector
  | audio
  | network
  | computer
  | other
deriving DecidableEq

def Diagnosis.value : Diagnosis → String
  | .projector => "Projector"
  | .audio => "Audio"
  | .network => "Network"
  | .computer => "Computer"
  | .other => "Other"

/-- Modelled from the spec: the `Diagnosis(token)` constructor call of
`ticketclasses.py` (not under the verified sources), a total function that
succeeds exactly when the token is a member value. -/
def diagnosisOfString (s : String) : Option Diagnosis :=
  if s = "Projector" then some .projector
  else if s = "Audio" then some .audio
  else if s = "Network" then some .network
  else if s = "Computer" then some .computer
  else if s = "Other" then some .other
  else none

/-! ## `datetime.strptime`

Model of the CPython function `datetime.strptime(time_text, format)` restricted to the
directives used by `TIME_FORMATS` and by the cleaning step: `%Y` `%y` `%m`
`%d` `%H` `%I` `%M` `%p`, literal characters, and whitespace (a single
whitespace character in the format matches one or more whitespace
characters of the input).  Each directive mirrors the regular expression
CPython compiles for it, including the greedy two-digit-first alternation;
after directive matching the whole input must be consumed and the resulting
calendar date must be valid (day within the month, year at least 1), as
enforced by the `datetime` constructor. -/

structure DateTime where
  year : Nat
  month : Nat
  day : Nat
  hour : Nat
  minute : Nat
deriving DecidableEq

/-- Directive `%Y`: exactly four digits. -/
def match4Digits : List Char → Option (Nat × List Char)
  | a :: b :: c :: d :: rest =>
    if isDigitCh a && isDigitCh b && isDigitCh c && isDigitCh d then
      some (1000 * dval a + 100 * dval b + 10 * dval c + dval d, rest)
    else none
  | _ => none

/-- Directive `%y`: exactly two digits; 0-68 maps to 2000-2068, 69-99 to 1969-1999. -/
def match2DigitYear : List Char → Option (Nat × List Char)
  | a :: b :: rest =>
    if isDigitCh a && isDigitCh b then
      let v := 10 * dval a + dval b
      some (if v ≤ 68 then 2000 + v else 1900 + v, rest)
    else none
  | _ => none

/-- Directive `%m` (and `%I`): two-digit 01-12, else a single digit 1-9. -/
def matchMonth : List Char → Option (Nat × List Char)
  | a :: b :: rest =>
    if a = '1' && ('0' ≤ b && b ≤ '2') then some (10 + dval b, rest)
    else if a = '0' && ('1' ≤ b && b ≤ '9') then some (dval b, rest)
    else if '1' ≤ a && a ≤ '9' then some (dval a, b :: rest)
    else none
  | [a] => if '1' ≤ a && a ≤ '9' then some (dval a, []) else none
  | [] => none

/-- Directive `%d`: two-digit 01-31, else a single digit 1-9. -/
def matchDay : List Char → Option (Nat × List Char)
  | a :: b :: rest =>
    if a = '3' && ('0' ≤ b && b ≤ '1') then some (30 + dval b, rest)
    else if ('1' ≤ a && a ≤ '2') && isDigitCh b then some (10 * dval a + dval b, rest)
    else if a = '0' && ('1' ≤ b && b ≤ '9') then some (dval b, rest)
    else if '1' ≤ a && a ≤ '9' then some (dval a, b :: rest)
    else none
  | [a] => if '1' ≤ a && a ≤ '9' then some (dval a, []) else none
  | [] => none

/-- Directive `%H`: two-digit 00-23, else a single digit 0-9. -/
def matchHour24 : List Char → Option (Nat × List Char)
  | a :: b :: rest =>
    if a = '2' && ('0' ≤ b && b ≤ '3') then some (20 + dval b, rest)
    else if ('0' ≤ a && a ≤ '1') && isDigitCh b then some (10 * dval a + dval b, rest)
    else if isDigitCh a then some (dval a, b :: rest)
    else none
  | [a] => if isDigitCh a then some (dval a, []) else none
  | [] => none

/-- Directive `%M`: two-digit 00-59, else a single digit 0-9. -/
def matchMinute : List Char → Option (Nat × List Char)
  | a :: b :: rest =>
    if ('0' ≤ a && a ≤ '5') && isDigitCh b then some (10 * dval a + dval b, rest)
    else if isDigitCh a then some (dval a, b :: rest)
    else none
  | [a] => if isDigitCh a then some (dval a, []) else none
  | [] => none

/-- Directive `%p`: the meridiem, case-insensitively; `true` means PM. -/
def matchMeridiem : List Char → Option (Bool × List Char)
  | a :: b :: rest =>
    if (a = 'A' || a = 'a') && (b = 'M' || b = 'm') then some (false, rest)
    else if (a = 'P' || a = 'p') && (b = 'M' || b = 'm') then some (true, rest)
    else none
  | _ => none

structure ParseAcc where
  year : Option Nat
  month : Option Nat
  day : Option Nat
  hour24 : Option Nat
  hour12 : Option Nat
  minute : Option Nat
  pm : Option Bool
deriving DecidableEq

def initAcc : ParseAcc := ⟨none, none, none, none, none, none, none⟩

/-- Interpret a format string (first argument) against the input (second
argument), accumulating the captured fields.  The whole input must be
consumed, as `strptime` raises on unconverted trailing data. -/
def runFormat : List Char → List Char → ParseAcc → Option ParseAcc
  | [], [], acc => some acc
  | [], _ :: _, _ => none
  | ['%'], _, _ => none
  | '%' :: d :: fmt, s, acc =>
    match d with
    | 'Y' =>
      match match4Digits s with
      | some (v, s2) => runFormat fmt s2 { acc with year := some v }
      | none => none
    | 'y' =>
      match match2DigitYear s with
      | some (v, s2) => runFormat fmt s2 { acc with year := some v }
      | none => none
    | 'm' =>
      match matchMonth s with
      | some (v, s2) => runFormat fmt s2 { acc with month := some v }
      | none => none
    | 'd' =>
      match matchDay s with
      | some (v, s2) => runFormat fmt s2 { acc with day := some v }
      | none => none
    | 'H' =>
      match matchHour24 s with
      | some (v, s2) => runFormat fmt s2 { acc with hour24 := some v }
      | none => none
    | 'I' =>
      match matchMonth s with
      | some (v, s2) => runFormat fmt s2 { acc with hour12 := some v }
      | none => none
    | 'M' =>
      match matchMinute s with
      | some (v, s2) => runFormat fmt s2 { acc with minute := some v }
      | none => none
    | 'p' =>
      match matchMeridiem s with
      | some (v, s2) => runFormat fmt s2 { acc with pm := some v }
      | none => none
    | _ => none
  | c :: fmt, s, acc =>
    if isWsCh c then
      match s with
      | c2 :: s2 => if isWsCh c2 then runFormat fmt (s2.dropWhile isWsCh) acc else none
      | [] => none
    else
      match s with
      | c2 :: s2 => if c2 = c then runFormat fmt s2 acc else none
      | [] => none

def isLeapYear (y : Nat) : Bool := y % 4 = 0 && (y % 100 ≠ 0 || y % 400 = 0)

def daysInMonth (y m : Nat) : Nat :=
  if m = 2 then (if isLeapYear y then 29 else 28)
  else if m = 4 || m = 6 || m = 9 || m = 11 then 30
  else 31

/-- Combine the captured fields as CPython does: defaults 1900-01-01 00:00,
`%I` adjusted by the meridiem (absent meridiem treated as AM), and the
calendar-date validation of the `datetime` constructor. -/
def buildDT (acc : ParseAcc) : Option DateTime :=
  let y := acc.year.getD 1900
  let mo := acc.month.getD 1
  let d := acc.day.getD 1
  let h :=
    match acc.hour24 with
    | some h => h
    | none =>
      match acc.hour12 with
      | none => 0
      | some i =>
        match acc.pm with
        | some true => if i = 12 then 12 else i + 12
        | _ => if i = 12 then 0 else i
  let mi := acc.minute.getD 0
  if 1 ≤ y && y ≤ 9999 && 1 ≤ d && d ≤ daysInMonth y mo then
    some ⟨y, mo, d, h, mi⟩
  else none

/-- The call `datetime.strptime(timeText, fmt)`, returning `none` where CPython
raises `ValueError`. -/
def strptimeOpt (timeText fmt : String) : Option DateTime :=
  match runFormat fmt.data timeText.data initAcc with
  | some acc => buildDT acc
  | none => none

/-! ## Rows and values -/

/-- A raw CSV row as produced by `csv.DictReader`: an association list from
field names to string cell values (a key bound to `None` behaves like an
absent key everywhere in this code and is modelled as absent). -/
abbrev RawRow : Type := List (String × String)

inductive Value where
  | str (s : String)
  | int (n : Int)
  | dt (d : DateTime)
  | diags (l : List Diagnosis)
deriving DecidableEq

/-- A cleaned row: the same dict after `clean_ticket_dict` replaced some
cells with typed objects. -/
abbrev CleanRow : Type := List (String × Value)

/-- Python `dict.get` and `dict[...]` lookup: the value bound to the first matching
key. -/
def alookup {α : Type} : List (String × α) → String → Option α
  | [], _ => none
  | (k, v) :: rest, key => if k = key then some v else alookup rest key

/-- Python assignment `dict[key] = v`: replace the binding in place, or append a new one. -/
def aset {α : Type} : List (String × α) → String → α → List (String × α)
  | [], key, v => [(key, v)]
  | (k, w) :: rest, key, v =>
    if k = key then (key, v) :: rest else (k, w) :: aset rest key v

/-- The expression `dict.get(key)` used as a condition: Python truthiness on the string
cell, i.e. the key is present and its value is non-empty. -/
def getTruthy (row : RawRow) (key : String) : Option String :=
  match alookup row key with
  | some s => if s = "" then none else some s
  | none => none

/-! ## Errors

Python exceptions raised by the pipeline: `BadReportError` (from
`report.py`), `ValueError` (from `int(...)` and `strptime`), `TypeError`
(from `strptime` with a non-string format) and the `StopIteration` raised
by `next(...)` on an exhausted `csv.DictReader`. -/

inductive PyError where
  | badReport (msg : String)
  | valueError (msg : String)
  | typeError (msg : String)
  | stopIteration
deriving DecidableEq

/-! ## Constants of `report.py` -/

def STANDARD_FIELDS : List String :=
  ["ID", "Title", "Resp Group", "Requestor", "Requestor Email", "Requestor Phone",
   "Acct/Dept", "Class Support Building", "Room number", "Classroom Problem Types",
   "Created", "Modified", "Status"]

def TIME_FORMATS : List String :=
  ["%Y-%m-%d %H:%M", "%m/%d/%Y %H:%M", "%m/%d/%y %H:%M", "%d.%m.%Y %H:%M",
   "%d.%m.%y %H:%M",
   "%Y-%m-%d %I:%M %p", "%m/%d/%Y %I:%M %p", "%m/%d/%y %I:%M %p",
   "%d.%m.%Y %I:%M %p", "%d.%m.%y %I:%M %p"]

/-! ## Helper functions of `report.py` -/

/-- Helper `get_fields_present`: the sublist of `STANDARD_FIELDS` whose keys are
present in the sample row (`csv_ticket.get(field) is not None`), together
with the flag saying whether the limited-functionality warning was printed
to stderr (`len(STANDARD_FIELDS) != len(fields_present)`). -/
def get_fields_present (row : RawRow) : List String × Bool :=
  let fields_present := STANDARD_FIELDS.filter (fun f => (alookup row f).isSome)
  (fields_present, STANDARD_FIELDS.length ≠ fields_present.length)

/-- The `for try_format in TIME_FORMATS` loop of `get_time_format`: return
the first candidate format under which `strptime` succeeds, or raise
`BadReportError`. -/
def tryTimeFormats (timeText : String) : List String → Except PyError (Option String)
  | [] => .error (.badReport ("Time " ++ timeText ++ " in report is not a valid time format"))
  | f :: fs =>
    if (strptimeOpt timeText f).isSome then .ok (some f) else tryTimeFormats timeText fs

/-- Helper `get_time_format`: pick the sample timestamp from "Created", else
"Modified" (Python truthiness), and return the first matching candidate
format; `none` when the row has no timestamp, `BadReportError` when no
candidate matches. -/
def get_time_format (row : RawRow) : Except PyError (Option String) :=
  match getTruthy row "Created" with
  | some t => tryTimeFormats t TIME_FORMATS
  | none =>
    match getTruthy row "Modified" with
    | some t => tryTimeFormats t TIME_FORMATS
    | none => .ok none

/-! ## `Report.clean_ticket_dict` -/

/-- The initial in-place state of the dict: every cell still a string. -/
def strRow (row : RawRow) : CleanRow := row.map (fun kv => (kv.1, Value.str kv.2))

/-- The "ID" step: `int(csv_ticket["ID"]) if csv_ticket.get("ID") else 0`. -/
def cleanId (row : RawRow) : Except PyError Int :=
  match getTruthy row "ID" with
  | some s =>
    match pyInt s with
    | some n => .ok n
    | none => .error (.valueError ("invalid literal for int with base 10: " ++ s))
  | none => .ok 0

/-- The "Created"/"Modified" step: if the cell is truthy, replace it with
`datetime.strptime(cell, self.time_format)`. -/
def cleanTime (tf : Option String) (row : RawRow) (key : String) (r : CleanRow) :
    Except PyError CleanRow :=
  match getTruthy row key with
  | none => .ok r
  | some s =>
    match tf with
    | none => .error (.typeError "strptime format must be str")
    | some f =>
      match strptimeOpt s f with
      | some d => .ok (aset r key (.dt d))
      | none => .error (.valueError ("time data " ++ s ++ " does not match format " ++ f))

/-- The per-token loop over `problem_types`: append the parsed `Diagnosis`
or raise `BadReportError` naming the first unrecognized token. -/
def parseDiagnoses : List String → Except PyError (List Diagnosis)
  | [] => .ok []
  | t :: ts =>
    match diagnosisOfString t with
    | none => .error (.badReport ("Unknown Classroom Problem Type " ++ t))
    | some d =>
      match parseDiagnoses ts with
      | .ok ds => .ok (d :: ds)
      | .error e => .error e

/-- The "Classroom Problem Types" step: split the truthy cell on `", "`,
convert every token, and store the diagnosis list; a falsy cell is replaced
by the empty list. -/
def cleanCPT (row : RawRow) (r : CleanRow) : Except PyError CleanRow :=
  match getTruthy row "Classroom Problem Types" with
  | none => .ok (aset r "Classroom Problem Types" (.diags []))
  | some s =>
    match parseDiagnoses ((splitCS s.data).map (fun l => String.mk l)) with
    | .error e => .error e
    | .ok ds => .ok (aset r "Classroom Problem Types" (.diags ds))

/-- Method `Report.clean_ticket_dict(csv_ticket)`: the four in-place update steps
in source order, with the detected `time_format` of the report. -/
def clean_ticket_dict (tf : Option String) (row : RawRow) : Except PyError CleanRow :=
  match cleanId row with
  | .error e => .error e
  | .ok n =>
    match cleanTime tf row "Created" (aset (strRow row) "ID" (.int n)) with
    | .error e => .error e
    | .ok r2 =>
      match cleanTime tf row "Modified" r2 with
      | .error e => .error e
      | .ok r3 => cleanCPT row r3

/-! ## The Organization model and `Report.populate`

Modelled from the spec: the `Organization` class lives in
`organization.py`, which is not among the sources under verification.  The
spec fixes the only behaviour `populate` relies on: `add_new_ticket`
always appends the normalized ticket to the flat ticket collection
(creating buildings and rooms lazily, which the claims here do not
observe). -/

structure Organization where
  tickets : List CleanRow
deriving DecidableEq

def emptyOrg : Organization := ⟨[]⟩

/-- Modelled from the spec: `Organization.add_new_ticket` of
`organization.py` (not under the verified sources) always appends to the
flat ticket collection. -/
def add_new_ticket (org : Organization) (t : CleanRow) : Organization :=
  ⟨org.tickets ++ [t]⟩

/-- The detected schema of a `Report` object. -/
structure Report where
  time_format : Option String
  fields_present : List String
deriving DecidableEq

/-- Outcome of `Report.populate`: the state of the (mutated-in-place)
organization, the exception if one escaped, and whether `csv_file.close()`
was reached. -/
structure PopResult where
  org : Organization
  err : Option PyError
  fileClosed : Bool
deriving DecidableEq

/-- The `for row in csv_tickets` loop of `populate`: clean each row, add it
to the organization, count it; an exception from cleaning escapes with the
organization as mutated so far. -/
def populateLoop (tf : Option String) :
    List RawRow → Organization → Nat → Organization × Nat × Option PyError
  | [], org, count => (org, count, none)
  | r :: rest, org, count =>
    match clean_ticket_dict tf r with
    | .error e => (org, count, some e)
    | .ok t => populateLoop tf rest (add_new_ticket org t) (count + 1)

/-- Method `Report.populate(org)` over the data rows of the report: run the loop; on
normal completion close the file and raise the report-is-empty error when
no row was counted.  When the loop raises, the `close()` line is never
reached. -/
def Report.populate (rep : Report) (rows : List RawRow) (org : Organization) : PopResult :=
  match populateLoop rep.time_format rows org 0 with
  | (org2, _, some e) => ⟨org2, some e, false⟩
  | (org2, count, none) =>
    if count = 0 then ⟨org2, some (.badReport "Ticket report is empty, exiting..."), true⟩
    else ⟨org2, none, true⟩

/-- Method `Report.__init__(filename)` over the data rows of the file: take the first
row via `next(csv.DictReader(...))` (raising `StopIteration` when there is
none), detect the fields present and the time format, then close the file.
When detection raises, the `close()` line is never reached.  The second
component records whether `csv_file.close()` was reached. -/
def Report.ofRows (rows : List RawRow) : Except PyError Report × Bool :=
  match rows with
  | [] => (.error .stopIteration, false)
  | r :: _ =>
    let fp := get_fields_present r
    match get_time_format r with
    | .error e => (.error e, false)
    | .ok tf => (.ok ⟨tf, fp.1⟩, true)

/-! ## Concrete fixtures used by witnesses and counterexamples -/

/-- A sample row carrying every canonical field with a non-empty value. -/
def fullRow : RawRow :=
  [("ID", "1"), ("Title", "Projector broken"), ("Resp Group", "CTS"),
   ("Requestor", "A"), ("Requestor Email", "a@x"), ("Requestor Phone", "5551234"),
   ("Acct/Dept", "Math"), ("Class Support Building", "Hall A"), ("Room number", "101"),
   ("Classroom Problem Types", "Projector"), ("Created", "2023-06-06 10:00"),
   ("Modified", "2023-06-07 11:30"), ("Status", "Closed")]

/-- Serialization of a diagnosis list back to the `", "`-joined cell
form of the report under the canonical enum-to-string mapping. -/
def joinDiagnoses (ds : List Diagnosis) : String :=
  String.mk (joinCS (ds.map (fun d => (Diagnosis.value d).data)))

/-! ## Lemmas about split and join -/

theorem splitCSAux_ne_nil : ∀ (s cur : List Char), splitCSAux s cur ≠ [] := by
  have H : ∀ n (s cur : List Char), s.length ≤ n → splitCSAux s cur ≠ [] := by
    intro n
    induction n with
    | zero =>
      intro s cur hs
      have : s = [] := List.length_eq_zero.mp (Nat.le_zero.mp hs)
      subst this
      simp [splitCSAux]
    | succ n ih =>
      intro s cur hs
      match s with
      | [] => simp [splitCSAux]
      | [c] => simp [splitCSAux]
      | c1 :: c2 :: rest =>
        simp only [splitCSAux]
        split
        · simp
        · exact ih (c2 :: rest) (c1 :: cur) (by simp at hs ⊢; omega)
  intro s cur
  exact H s.length s cur le_rfl

theorem joinCS_splitCSAux : ∀ (s cur : List Char),
    joinCS (splitCSAux s cur) = cur.reverse ++ s := by
  have H : ∀ n (s cur : List Char), s.length ≤ n →
      joinCS (splitCSAux s cur) = cur.reverse ++ s := by
    intro n
    induction n with
    | zero =>
      intro s cur hs
      have : s = [] := List.length_eq_zero.mp (Nat.le_zero.mp hs)
      subst this
      simp [splitCSAux, joinCS]
    | succ n ih =>
      intro s cur hs
      match s with
      | [] => simp [splitCSAux, joinCS]
      | [c] => simp [splitCSAux, joinCS]
      | c1 :: c2 :: rest =>
        simp only [splitCSAux]
        split
        · rename_i hd
          obtain ⟨h1, h2⟩ := hd
          subst h1; subst h2
          cases hsp : splitCSAux rest [] with
          | nil => exact absurd hsp (splitCSAux_ne_nil rest [])
          | cons t ts =>
            have hrec : joinCS (splitCSAux rest []) = rest := by
              have := ih rest [] (by simp at hs ⊢; omega)
              simpa using this
            rw [hsp] at hrec
            simp only [joinCS, hrec]
        · have := ih (c2 :: rest) (c1 :: cur) (by simp at hs ⊢; omega)
          rw [this]
          simp
  intro s cur
  exact H s.length s cur le_rfl

theorem joinCS_splitCS (s : List Char) : joinCS (splitCS s) = s := by
  have := joinCS_splitCSAux s []
  simpa [splitCS] using this

theorem diagnosisOfString_value {s : String} {d : Diagnosis}
    (h : diagnosisOfString s = some d) : d.value = s := by
  unfold diagnosisOfString at h
  split_ifs at h with h1 h2 h3 h4 h5
  · injection h with hd; subst hd; subst h1; rfl
  · injection h with hd; subst hd; subst h2; rfl
  · injection h with hd; subst hd; subst h3; rfl
  · injection h with hd; subst hd; subst h4; rfl
  · injection h with hd; subst hd; subst h5; rfl

/-! ## Lemmas about dict operations -/

theorem alookup_aset_self {α : Type} (r : List (String × α)) (k : String) (v : α) :
    alookup (aset r k v) k = some v := by
  induction r with
  | nil => simp [aset, alookup]
  | cons kv rest ih =>
    obtain ⟨k2, w⟩ := kv
    by_cases hk : k2 = k
    · subst hk
      simp [aset, alookup]
    · simp [aset, hk, alookup, ih]

theorem alookup_aset_ne {α : Type} (r : List (String × α)) (k : String) (v : α)
    {key : String} (hne : k ≠ key) : alookup (aset r k v) key = alookup r key := by
  induction r with
  | nil => simp [aset, alookup, hne]
  | cons kv rest ih =>
    obtain ⟨k2, w⟩ := kv
    by_cases hk : k2 = k
    · subst hk
      simp [aset, alookup, hne, ih]
    · by_cases hk2 : k2 = key
      · subst hk2
        simp [aset, hk, alookup]
      · simp [aset, hk, alookup, hk2, ih]

theorem alookup_strRow (row : RawRow) (k : String) :
    alookup (strRow row) k = (alookup row k).map Value.str := by
  induction row with
  | nil => simp [strRow, alookup]
  | cons kv rest ih =>
    obtain ⟨k2, w⟩ := kv
    by_cases hk : k2 = k
    · subst hk
      simp [strRow, alookup]
    · simp [strRow, alookup, hk] at ih ⊢
      exact ih

/-! ## Lemmas about the cleaning steps -/

theorem cleanTime_frame {tf : Option String} {row : RawRow} {key : String}
    {r r2 : CleanRow} (h : cleanTime tf row key r = .ok r2) {k : String}
    (hk : key ≠ k) : alookup r2 k = alookup r k := by
  unfold cleanTime at h
  split at h
  · injection h with h; rw [← h]
  · split at h
    · exact Except.noConfusion h
    · split at h
      · injection h with h
        rw [← h]
        exact alookup_aset_ne r key _ hk
      · exact Except.noConfusion h

theorem cleanCPT_frame {row : RawRow} {r r2 : CleanRow}
    (h : cleanCPT row r = .ok r2) {k : String}
    (hk : "Classroom Problem Types" ≠ k) : alookup r2 k = alookup r k := by
  unfold cleanCPT at h
  split at h
  · injection h with h
    rw [← h]
    exact alookup_aset_ne r _ (.diags []) hk
  · split at h
    · exact Except.noConfusion h
    · injection h with h
      rw [← h]
      exact alookup_aset_ne r _ _ hk

theorem clean_ticket_dict_frame {tf : Option String} {row : RawRow} {out : CleanRow}
    (h : clean_ticket_dict tf row = .ok out) {k : String}
    (hk : k ≠ "ID" ∧ k ≠ "Created" ∧ k ≠ "Modified" ∧ k ≠ "Classroom Problem Types") :
    alookup out k = (alookup row k).map Value.str := by
  obtain ⟨hid, hcr, hmo, hcpt⟩ := hk
  unfold clean_ticket_dict at h
  split at h
  · exact Except.noConfusion h
  · split at h
    · exact Except.noConfusion h
    · split at h
      · exact Except.noConfusion h
      · rename_i hm
        rename_i hc _ _
        have e4 := cleanCPT_frame h (fun hx => hcpt hx.symm)
        have e3 := cleanTime_frame hm (fun hx => hmo hx.symm)
        have e2 := cleanTime_frame hc (fun hx => hcr hx.symm)
        rw [e4, e3, e2, alookup_aset_ne _ _ _ (fun hx => hid hx.symm), alookup_strRow]

theorem parseDiagnoses_ok_map : ∀ {ts : List String} {ds : List Diagnosis},
    parseDiagnoses ts = .ok ds → ds.map Diagnosis.value = ts := by
  intro ts
  induction ts with
  | nil => intro ds h; injection h with h; rw [← h]; rfl
  | cons t rest ih =>
    intro ds h
    unfold parseDiagnoses at h
    cases hd : diagnosisOfString t with
    | none => rw [hd] at h; exact Except.noConfusion h
    | some d =>
      rw [hd] at h
      cases hr : parseDiagnoses rest with
      | error e => rw [hr] at h; exact Except.noConfusion h
      | ok ds2 =>
        rw [hr] at h
        injection h with h
        rw [← h]
        simp [List.map_cons, ih hr, diagnosisOfString_value hd]

theorem parseDiagnoses_error : ∀ {ts : List String} {e : PyError},
    parseDiagnoses ts = .error e →
    ∃ t ∈ ts, e = .badReport ("Unknown Classroom Problem Type " ++ t) := by
  intro ts
  induction ts with
  | nil => intro e h; exact Except.noConfusion h
  | cons t rest ih =>
    intro e h
    unfold parseDiagnoses at h
    cases hd : diagnosisOfString t with
    | none =>
      rw [hd] at h
      injection h with h
      exact ⟨t, List.mem_cons_self t rest, h.symm⟩
    | some d =>
      rw [hd] at h
      cases hr : parseDiagnoses rest with
      | error e2 =>
        rw [hr] at h
        injection h with h
        subst h
        obtain ⟨t2, ht2, he⟩ := ih hr
        exact ⟨t2, List.mem_cons_of_mem t ht2, he⟩
      | ok ds2 => rw [hr] at h; exact Except.noConfusion h

/-! ## Characterizing the errors each step can raise -/

theorem cleanId_error {row : RawRow} {e : PyError} (h : cleanId row = .error e) :
    ∃ m, e = .valueError m := by
  unfold cleanId at h
  split at h
  · split at h
    · exact Except.noConfusion h
    · injection h with h; exact ⟨_, h.symm⟩
  · exact Except.noConfusion h

theorem cleanTime_error {tf : Option String} {row : RawRow} {key : String}
    {r : CleanRow} {e : PyError} (h : cleanTime tf row key r = .error e) :
    (∃ m, e = .valueError m) ∨ (∃ m, e = .typeError m) := by
  unfold cleanTime at h
  split at h
  · exact Except.noConfusion h
  · split at h
    · injection h with h; exact .inr ⟨_, h.symm⟩
    · split at h
      · exact Except.noConfusion h
      · injection h with h; exact .inl ⟨_, h.symm⟩

theorem cleanCPT_error {row : RawRow} {r : CleanRow} {e : PyError}
    (h : cleanCPT row r = .error e) :
    ∃ t, e = .badReport ("Unknown Classroom Problem Type " ++ t) := by
  unfold cleanCPT at h
  split at h
  · exact Except.noConfusion h
  · split at h
    · rename_i hp
      injection h with h
      subst h
      obtain ⟨t, _, he⟩ := parseDiagnoses_error hp
      exact ⟨t, he⟩
    · exact Except.noConfusion h

theorem unknown_msg_ne_empty_msg (t : String) :
    ("Unknown Classroom Problem Type " ++ t) ≠ "Ticket report is empty, exiting..." := by
  intro h
  have h2 := congrArg (fun s : String => s.data.head?) h
  simp only [String.data_append, List.head?_append] at h2
  have h3 : ("Unknown Classroom Problem Type ").data.head? = some 'U' := by decide
  have h4 : ("Ticket report is empty, exiting...").data.head? = some 'T' := by decide
  rw [h3, h4] at h2
  simp at h2

/-- No exception escaping `clean_ticket_dict` is the report-is-empty
`BadReportError` raised at the end of `populate`. -/
theorem clean_error_ne_empty {tf : Option String} {row : RawRow} {e : PyError}
    (h : clean_ticket_dict tf row = .error e) :
    e ≠ .badReport "Ticket report is empty, exiting..." := by
  unfold clean_ticket_dict at h
  split at h
  · rename_i hi
    injection h with h
    subst h
    obtain ⟨m, hm⟩ := cleanId_error hi
    subst hm
    intro hc
    exact PyError.noConfusion hc
  · split at h
    · rename_i hc
      injection h with h
      subst h
      rcases cleanTime_error hc with ⟨m, hm⟩ | ⟨m, hm⟩ <;> (subst hm; intro hx; exact PyError.noConfusion hx)
    · split at h
      · rename_i hm2
        injection h with h
        subst h
        rcases cleanTime_error hm2 with ⟨m, hm⟩ | ⟨m, hm⟩ <;> (subst hm; intro hx; exact PyError.noConfusion hx)
      · obtain ⟨t, ht⟩ := cleanCPT_error h
        subst ht
        intro hx
        injection hx with hx
        exact unknown_msg_ne_empty_msg t hx

/-! ## Lemmas about the population loop -/

theorem populateLoop_none_count : ∀ {rows : List RawRow} {tf : Option String}
    {org org2 : Organization} {c c2 : Nat},
    populateLoop tf rows org c = (org2, c2, none) → c2 = c + rows.length := by
  intro rows
  induction rows with
  | nil =>
    intro tf org org2 c c2 h
    injection h with h1 h2
    injection h2 with h2 h3
    simp [h2]
  | cons r rest ih =>
    intro tf org org2 c c2 h
    unfold populateLoop at h
    split at h
    · injection h with h1 h2
      injection h2 with h2 h3
      exact Option.noConfusion h3
    · have := ih h
      simp [this]
      omega

theorem populateLoop_err_mem : ∀ {rows : List RawRow} {tf : Option String}
    {org org2 : Organization} {c c2 : Nat} {e : PyError},
    populateLoop tf rows org c = (org2, c2, some e) →
    ∃ r ∈ rows, clean_ticket_dict tf r = .error e := by
  intro rows
  induction rows with
  | nil =>
    intro tf org org2 c c2 e h
    injection h with h1 h2
    injection h2 with h2 h3
    exact Option.noConfusion h3
  | cons r rest ih =>
    intro tf org org2 c c2 e h
    unfold populateLoop at h
    split at h
    · rename_i e2 hcl
      injection h with h1 h2
      injection h2 with h2 h3
      injection h3 with h3
      subst h3
      exact ⟨r, List.mem_cons_self r rest, hcl⟩
    · obtain ⟨r2, hr2, he⟩ := ih h
      exact ⟨r2, List.mem_cons_of_mem r hr2, he⟩

theorem add_new_ticket_tickets (org : Organization) (t : CleanRow) :
    (add_new_ticket org t).tickets = org.tickets ++ [t] := rfl

theorem populateLoop_prefix_err : ∀ (good : List RawRow) {tf : Option String}
    {bad : RawRow} {rest : List RawRow} {org : Organization} {c : Nat} {e : PyError},
    (∀ r ∈ good, (clean_ticket_dict tf r).isOk = true) →
    clean_ticket_dict tf bad = .error e →
    ∃ org2 : Organization,
      populateLoop tf (good ++ bad :: rest) org c = (org2, c + good.length, some e) ∧
      org2.tickets.length = org.tickets.length + good.length := by
  intro good
  induction good with
  | nil =>
    intro tf bad rest org c e hgood hbad
    refine ⟨org, ?_, by simp⟩
    simp only [List.nil_append, populateLoop, hbad, List.length_nil, Nat.add_zero]
  | cons g gs ih =>
    intro tf bad rest org c e hgood hbad
    have hg : (clean_ticket_dict tf g).isOk = true := hgood g (List.mem_cons_self g gs)
    cases hcl : clean_ticket_dict tf g with
    | error e2 => rw [hcl] at hg; simp [Except.isOk, Except.toBool] at hg
    | ok t =>
      have hgs : ∀ r ∈ gs, (clean_ticket_dict tf r).isOk = true :=
        fun r hr => hgood r (List.mem_cons_of_mem g hr)
      obtain ⟨org2, hloop, hlen⟩ := @ih tf bad rest (add_new_ticket org t) (c + 1) e hgs hbad
      refine ⟨org2, ?_, ?_⟩
      · have hcount : c + 1 + gs.length = c + (g :: gs).length := by
          simp only [List.length_cons]
          omega
        simp only [List.cons_append, populateLoop, hcl, List.append_eq]
        rw [hloop, hcount]
      · rw [hlen, add_new_ticket_tickets]
        simp only [List.length_append, List.length_cons, List.length_nil]
        omega

theorem populateLoop_none_iff : ∀ {rows : List RawRow} {tf : Option String}
    {org : Organization} {c : Nat},
    (populateLoop tf rows org c).2.2 = none ↔
      ∀ r ∈ rows, (clean_ticket_dict tf r).isOk = true := by
  intro rows
  induction rows with
  | nil =>
    intro tf org c
    simp [populateLoop]
  | cons r rest ih =>
    intro tf org c
    unfold populateLoop
    cases hcl : clean_ticket_dict tf r with
    | error e =>
      simp only
      constructor
      · intro h; exact Option.noConfusion h
      · intro h
        have := h r (List.mem_cons_self r rest)
        rw [hcl] at this
        simp [Except.isOk, Except.toBool] at this
    | ok t =>
      simp only
      rw [ih]
      constructor
      · intro h r2 hr2
        rcases List.mem_cons.mp hr2 with hr2 | hr2
        · subst hr2; rw [hcl]; rfl
        · exact h r2 hr2
      · intro h r2 hr2
        exact h r2 (List.mem_cons_of_mem r hr2)

/-! ## Lemmas about `tryTimeFormats` -/

theorem tryTimeFormats_ok_first : ∀ {fmts : List String} {t f : String},
    tryTimeFormats t fmts = .ok (some f) →
    ∃ pre post, fmts = pre ++ f :: post ∧ (∀ g ∈ pre, strptimeOpt t g = none) ∧
      (strptimeOpt t f).isSome = true := by
  intro fmts
  induction fmts with
  | nil => intro t f h; exact Except.noConfusion h
  | cons f0 fs ih =>
    intro t f h
    unfold tryTimeFormats at h
    split_ifs at h with hs
    · injection h with h
      injection h with h
      subst h
      exact ⟨[], fs, rfl, by simp, hs⟩
    · obtain ⟨pre, post, heq, hpre, hok⟩ := ih h
      refine ⟨f0 :: pre, post, by rw [heq]; rfl, ?_, hok⟩
      intro g hg
      rcases List.mem_cons.mp hg with hg | hg
      · subst hg
        cases hn : strptimeOpt t g with
        | none => rfl
        | some d => rw [hn] at hs; simp at hs
      · exact hpre g hg

theorem tryTimeFormats_fail : ∀ {fmts : List String} {t : String},
    (∀ f ∈ fmts, strptimeOpt t f = none) →
    tryTimeFormats t fmts =
      .error (.badReport ("Time " ++ t ++ " in report is not a valid time format")) := by
  intro fmts
  induction fmts with
  | nil => intro t h; rfl
  | cons f0 fs ih =>
    intro t h
    have h0 : strptimeOpt t f0 = none := h f0 (List.mem_cons_self f0 fs)
    have hrest := ih (fun f hf => h f (List.mem_cons_of_mem f0 hf))
    unfold tryTimeFormats
    rw [h0]
    simpa using hrest

theorem tryTimeFormats_not_ok_none : ∀ {fmts : List String} {t : String},
    tryTimeFormats t fmts ≠ .ok none := by
  intro fmts
  induction fmts with
  | nil => intro t h; exact Except.noConfusion h
  | cons f0 fs ih =>
    intro t h
    unfold tryTimeFormats at h
    split_ifs at h with hs
    · injection h with h; exact Option.noConfusion h
    · exact ih h

/-! ## The ID step seen through `clean_ticket_dict` -/

theorem clean_id_error {tf : Option String} {row : RawRow} {e : PyError}
    (h : cleanId row = .error e) : clean_ticket_dict tf row = .error e := by
  unfold clean_ticket_dict
  rw [h]

theorem clean_ok_id {tf : Option String} {row : RawRow} {out : CleanRow} {n : Int}
    (h : clean_ticket_dict tf row = .ok out) (hid : cleanId row = .ok n) :
    alookup out "ID" = some (.int n) := by
  unfold clean_ticket_dict at h
  split at h
  · rename_i e he
    rw [hid] at he
    exact Except.noConfusion he
  · rename_i n2 hn2
    rw [hid] at hn2
    injection hn2 with hn2
    subst hn2
    split at h
    · exact Except.noConfusion h
    · split at h
      · exact Except.noConfusion h
      · rename_i hm
        rename_i hc _ _
        have e4 := cleanCPT_frame h (show "Classroom Problem Types" ≠ "ID" by decide)
        have e3 := cleanTime_frame hm (show "Modified" ≠ "ID" by decide)
        have e2 := cleanTime_frame hc (show "Created" ≠ "ID" by decide)
        rw [e4, e3, e2, alookup_aset_self]

/-! ## Claims -/

/-- C1, counterexample: a report whose first row is valid and whose second
row carries the unknown token "Ghost" makes `populate` fail with the
`BadReportError` naming the token, yet one ticket (from the first row) has
already been added to the organization — the abort is not atomic, refuting
the zero-tickets part of the claim. -/
theorem c1_counterexample :
    (Report.populate ⟨none, []⟩ [[("ID", "1")], [("Classroom Problem Types", "Ghost")]]
        emptyOrg).err = some (.badReport "Unknown Classroom Problem Type Ghost") ∧
    (Report.populate ⟨none, []⟩ [[("ID", "1")], [("Classroom Problem Types", "Ghost")]]
        emptyOrg).org.tickets.length = 1 := by
  constructor
  · decide
  · decide

/-- C1 (amended): when a row whose "Classroom Problem Types" cell holds an
unknown token is reached, `Report.populate` fails with the `BadReportError`
naming the offending token and neither that row nor any later row is added;
however the rows preceding it have already been added to the Organization
model, so the number of tickets grows by exactly the length of the clean
prefix. -/
theorem c1_populate_bad_diagnosis_aborts (rep : Report) (good : List RawRow)
    (bad : RawRow) (rest : List RawRow) (org : Organization) (tok : String)
    (hgood : ∀ r ∈ good, (clean_ticket_dict rep.time_format r).isOk = true)
    (hbad : clean_ticket_dict rep.time_format bad =
      .error (.badReport ("Unknown Classroom Problem Type " ++ tok))) :
    (Report.populate rep (good ++ bad :: rest) org).err =
      some (.badReport ("Unknown Classroom Problem Type " ++ tok)) ∧
    (Report.populate rep (good ++ bad :: rest) org).org.tickets.length =
      org.tickets.length + good.length := by
  obtain ⟨org2, hloop, hlen⟩ := populateLoop_prefix_err good hgood hbad
  unfold Report.populate
  rw [hloop]
  exact ⟨rfl, hlen⟩

/-- C1, witness: the amended statement at the concrete two-row report of
the counterexample. -/
theorem c1_witness :
    (Report.populate ⟨none, []⟩ ([[("ID", "1")]] ++ [("Classroom Problem Types", "Ghost")] :: [])
        emptyOrg).err = some (.badReport ("Unknown Classroom Problem Type " ++ "Ghost")) ∧
    (Report.populate ⟨none, []⟩ ([[("ID", "1")]] ++ [("Classroom Problem Types", "Ghost")] :: [])
        emptyOrg).org.tickets.length = emptyOrg.tickets.length + [[("ID", "1")]].length :=
  c1_populate_bad_diagnosis_aborts ⟨none, []⟩ [[("ID", "1")]]
    [("Classroom Problem Types", "Ghost")] [] emptyOrg "Ghost" (by decide) (by decide)

/-- C2, counterexample: a present, non-empty, non-numeric "ID" cell does
not default to 0 — `int("abc")` raises a `ValueError` that fails the whole
row, refuting the never-fails part of the claim. -/
theorem c2_counterexample :
    clean_ticket_dict none [("ID", "abc")] =
      .error (.valueError "invalid literal for int with base 10: abc") := by
  decide

/-- C2 (amended): `clean_ticket_dict` parses the "ID" field with Python
`int(...)` and defaults it to 0 when the field is absent or empty; a
present, non-empty value that is not a valid integer literal raises a
`ValueError` that fails the row (and a parsed value may be negative, so it
is an integer, not a non-negative one). -/
theorem c2_id_normalization (tf : Option String) (row : RawRow) :
    (getTruthy row "ID" = none → ∀ out, clean_ticket_dict tf row = .ok out →
      alookup out "ID" = some (.int 0)) ∧
    (∀ s n, getTruthy row "ID" = some s → pyInt s = some n →
      ∀ out, clean_ticket_dict tf row = .ok out → alookup out "ID" = some (.int n)) ∧
    (∀ s, getTruthy row "ID" = some s → pyInt s = none →
      clean_ticket_dict tf row =
        .error (.valueError ("invalid literal for int with base 10: " ++ s))) := by
  refine ⟨?_, ?_, ?_⟩
  · intro hget out hok
    have hid : cleanId row = .ok 0 := by simp [cleanId, hget]
    exact clean_ok_id hok hid
  · intro s n hget hp out hok
    have hid : cleanId row = .ok n := by simp [cleanId, hget, hp]
    exact clean_ok_id hok hid
  · intro s hget hp
    have hid : cleanId row =
        .error (.valueError ("invalid literal for int with base 10: " ++ s)) := by
      simp [cleanId, hget, hp]
    exact clean_id_error hid

/-- C2, witness: the amended statement applied at a parsing row, at a
defaulted row, and at the failing row of the counterexample. -/
theorem c2_witness :
    alookup [("ID", Value.int 9), ("Classroom Problem Types", Value.diags [])] "ID" =
      some (.int 9) ∧
    alookup [("Title", Value.str "t"), ("ID", Value.int 0),
      ("Classroom Problem Types", Value.diags [])] "ID" = some (.int 0) ∧
    clean_ticket_dict none [("ID", "abc")] =
      .error (.valueError ("invalid literal for int with base 10: " ++ "abc")) :=
  ⟨(c2_id_normalization none [("ID", "9")]).2.1 "9" 9 (by decide) (by decide) _ (by decide),
   (c2_id_normalization none [("Title", "t")]).1 (by decide) _ (by decide),
   (c2_id_normalization none [("ID", "abc")]).2.2 "abc" (by decide) (by decide)⟩

/-- C3: `get_time_format` tries the fixed ordered candidate list
`TIME_FORMATS` and returns the first format that parses the sample
timestamp; on a row with Created = "2023-06-06 10:00" it selects
"%Y-%m-%d %H:%M", under which that value parses to 2023-06-06 10:00. -/
theorem c3_first_matching_format :
    (∀ t fmt : String, tryTimeFormats t TIME_FORMATS = .ok (some fmt) →
      ∃ pre post, TIME_FORMATS = pre ++ fmt :: post ∧
        (∀ g ∈ pre, strptimeOpt t g = none) ∧ (strptimeOpt t fmt).isSome = true) ∧
    get_time_format [("Created", "2023-06-06 10:00")] = .ok (some "%Y-%m-%d %H:%M") ∧
    strptimeOpt "2023-06-06 10:00" "%Y-%m-%d %H:%M" =
      some ⟨2023, 6, 6, 10, 0⟩ := by
  refine ⟨?_, by decide, by decide⟩
  intro t fmt h
  exact tryTimeFormats_ok_first h

/-- C3, witness: the first-match characterization applied to the concrete
sample timestamp and the format the detector selects for it. -/
theorem c3_witness :
    ∃ pre post, TIME_FORMATS = pre ++ "%Y-%m-%d %H:%M" :: post ∧
      (∀ g ∈ pre, strptimeOpt "2023-06-06 10:00" g = none) ∧
      (strptimeOpt "2023-06-06 10:00" "%Y-%m-%d %H:%M").isSome = true :=
  c3_first_matching_format.1 "2023-06-06 10:00" "%Y-%m-%d %H:%M" (by decide)

/-- C4, counterexample: a row whose "ID" cell is present but empty still
contributes "ID" to `get_fields_present` (the code checks
`get(field) is not None`, not non-emptiness), refuting the
present-and-non-empty part of the claim. -/
theorem c4_counterexample :
    alookup [("ID", "")] "ID" = some "" ∧
    (get_fields_present [("ID", "")]).1 = ["ID"] := by
  constructor
  · decide
  · decide

/-- C4 (amended): `get_fields_present` returns exactly the subset of
`STANDARD_FIELDS` whose keys are present in the sample row, regardless of
whether the value is empty, preserving canonical order; a row with all
canonical fields present yields the full canonical list. -/
theorem c4_fields_present (row : RawRow) :
    List.Sublist (get_fields_present row).1 STANDARD_FIELDS ∧
    (∀ f, f ∈ (get_fields_present row).1 ↔
      f ∈ STANDARD_FIELDS ∧ (alookup row f).isSome = true) ∧
    ((∀ f ∈ STANDARD_FIELDS, (alookup row f).isSome = true) →
      (get_fields_present row).1 = STANDARD_FIELDS) := by
  refine ⟨List.filter_sublist _, ?_, ?_⟩
  · intro f
    simp [get_fields_present, List.mem_filter]
  · intro h
    simp only [get_fields_present]
    exact List.filter_eq_self.mpr h

/-- C4, witness: the full-presence sample row yields the full canonical
list, order preserved. -/
theorem c4_witness :
    (get_fields_present fullRow).1 = STANDARD_FIELDS :=
  (c4_fields_present fullRow).2.2 (by decide)

/-- C5: `get_time_format` returns no format when the row has neither
"Created" nor "Modified"; it raises the `BadReportError` when the chosen
timestamp matches no candidate format; and any format it returns parses
the sample timestamp it was tested on. -/
theorem c5_time_format_errors (row : RawRow) :
    ((alookup row "Created" = none ∧ alookup row "Modified" = none) →
      get_time_format row = .ok none) ∧
    (∀ t, (getTruthy row "Created" = some t ∨
        (getTruthy row "Created" = none ∧ getTruthy row "Modified" = some t)) →
      (∀ f ∈ TIME_FORMATS, strptimeOpt t f = none) →
      get_time_format row =
        .error (.badReport ("Time " ++ t ++ " in report is not a valid time format"))) ∧
    (∀ fmt, get_time_format row = .ok (some fmt) →
      ∃ t, (getTruthy row "Created" = some t ∨ getTruthy row "Modified" = some t) ∧
        (strptimeOpt t fmt).isSome = true) := by
  refine ⟨?_, ?_, ?_⟩
  · rintro ⟨h1, h2⟩
    simp [get_time_format, getTruthy, h1, h2]
  · rintro t (hc | ⟨hc, hm⟩) hfail
    · simp only [get_time_format, hc]
      exact tryTimeFormats_fail hfail
    · simp only [get_time_format, hc, hm]
      exact tryTimeFormats_fail hfail
  · intro fmt h
    unfold get_time_format at h
    split at h
    · rename_i t hc
      obtain ⟨pre, post, heq, hpre, hok⟩ := tryTimeFormats_ok_first h
      exact ⟨t, .inl hc, hok⟩
    · split at h
      · rename_i t hm
        obtain ⟨pre, post, heq, hpre, hok⟩ := tryTimeFormats_ok_first h
        exact ⟨t, .inr hm, hok⟩
      · injection h with h
        exact Option.noConfusion h

/-- C5, witness: a row with no timestamp fields yields no format, and a row
whose Created value matches no candidate raises the error. -/
theorem c5_witness :
    get_time_format [("ID", "5")] = .ok none ∧
    get_time_format [("Created", "junk")] =
      .error (.badReport ("Time " ++ "junk" ++ " in report is not a valid time format")) :=
  ⟨(c5_time_format_errors [("ID", "5")]).1 ⟨by decide, by decide⟩,
   (c5_time_format_errors [("Created", "junk")]).2.1 "junk" (.inl (by decide)) (by decide)⟩

/-- C6: `Report.populate` raises the report-is-empty `BadReportError`
exactly when the report has zero data rows, and constructing the `Report`
from a header-only file fails fatally (the `next(...)` call raises
`StopIteration`). -/
theorem c6_empty_report (rep : Report) (rows : List RawRow) (org : Organization) :
    ((Report.populate rep rows org).err =
        some (.badReport "Ticket report is empty, exiting...") ↔ rows = []) ∧
    (Report.ofRows []).1 = .error .stopIteration := by
  refine ⟨⟨?_, ?_⟩, rfl⟩
  · intro h
    unfold Report.populate at h
    split at h
    · rename_i org2 c2 e hloop
      simp only at h
      injection h with h
      subst h
      obtain ⟨r, hr, he⟩ := populateLoop_err_mem hloop
      exact absurd rfl (clean_error_ne_empty he)
    · rename_i org2 c2 hloop
      split_ifs at h with hc
      have hcnt := populateLoop_none_count hloop
      have : rows.length = 0 := by omega
      exact List.length_eq_zero.mp this
  · intro h
    subst h
    simp [Report.populate, populateLoop]

/-- C6, witness: at a concrete empty row list the populate pass raises the
report-is-empty error. -/
theorem c6_witness :
    (Report.populate ⟨none, []⟩ [] emptyOrg).err =
      some (.badReport "Ticket report is empty, exiting...") :=
  (c6_empty_report ⟨none, []⟩ [] emptyOrg).1.mpr rfl

/-- C7, counterexample: on a header-only file `Report.__init__` raises
before reaching `csv_file.close()`, and on a report whose only row carries
an unknown diagnosis token `Report.populate` raises mid-loop before
reaching `csv_file.close()` — the handle is not closed on those error exit
paths, refuting the closed-on-every-exit-path claim. -/
theorem c7_counterexample :
    (Report.ofRows []).2 = false ∧
    (Report.populate ⟨none, []⟩ [[("Classroom Problem Types", "Ghost")]]
        emptyOrg).fileClosed = false := by
  constructor
  · decide
  · decide

/-- C7 (amended): the `csv_file.close()` call of `Report.__init__` is
reached exactly when schema detection succeeds, and the one in
`Report.populate` exactly when every row cleans without raising (in
particular it is reached on the report-is-empty error path, where the file
is closed before the raise); on the other error paths the handle is left
open. -/
theorem c7_file_closed_iff (rows : List RawRow) (rep : Report) (org : Organization) :
    ((Report.ofRows rows).2 = true ↔ (Report.ofRows rows).1.isOk = true) ∧
    ((Report.populate rep rows org).fileClosed = true ↔
      ∀ r ∈ rows, (clean_ticket_dict rep.time_format r).isOk = true) := by
  constructor
  · cases rows with
    | nil => simp [Report.ofRows, Except.isOk, Except.toBool]
    | cons r rest =>
      cases hg : get_time_format r with
      | error e => simp [Report.ofRows, hg, Except.isOk, Except.toBool]
      | ok tf => simp [Report.ofRows, hg, Except.isOk, Except.toBool]
  · rcases hloop : populateLoop rep.time_format rows org 0 with ⟨org2, c2, eopt⟩
    have hiff := @populateLoop_none_iff rows rep.time_format org 0
    rw [hloop] at hiff
    simp only at hiff
    unfold Report.populate
    rw [hloop]
    cases eopt with
    | some e =>
      simp only at hiff ⊢
      constructor
      · intro hfc
        exact Bool.noConfusion hfc
      · intro hall
        exact absurd (hiff.mpr hall) (by simp)
    | none =>
      have hall := hiff.mp rfl
      refine ⟨fun _ => hall, fun _ => ?_⟩
      by_cases hc : c2 = 0 <;> simp [hc]

/-- C7, witness: the amended statement applied at a clean one-row report,
where the populate handle is closed. -/
theorem c7_witness :
    (Report.populate ⟨none, []⟩ [[("ID", "1")]] emptyOrg).fileClosed = true :=
  (c7_file_closed_iff [[("ID", "1")]] ⟨none, []⟩ emptyOrg).2.mpr (by decide)

/-- C8, counterexample: on a sample row with every canonical field present
no warning is emitted, refuting the claim that the warning fires when none
of the canonical fields is absent. -/
theorem c8_counterexample :
    (∀ f ∈ STANDARD_FIELDS, (alookup fullRow f).isSome = true) ∧
    (get_fields_present fullRow).2 = false := by
  constructor
  · decide
  · decide

/-- C8 (amended): the non-fatal limited-functionality warning is emitted
exactly when at least one canonical field is absent from the sample row;
it is advisory only — the fields-present list is returned either way. -/
theorem c8_warning_iff (row : RawRow) :
    ((get_fields_present row).2 = true ↔
      ∃ f ∈ STANDARD_FIELDS, alookup row f = none) ∧
    (get_fields_present row).1 =
      STANDARD_FIELDS.filter (fun f => (alookup row f).isSome) := by
  refine ⟨?_, rfl⟩
  simp only [get_fields_present, decide_eq_true_eq]
  constructor
  · intro hne
    by_contra hno
    push_neg at hno
    apply hne
    have hall : ∀ f ∈ STANDARD_FIELDS, ((alookup row f).isSome = true) := by
      intro f hf
      cases hl : alookup row f with
      | none => exact absurd hl (hno f hf)
      | some v => rfl
    rw [List.filter_eq_self.mpr hall]
  · rintro ⟨f, hf, hnone⟩ heq
    have hsub : List.Sublist
        (STANDARD_FIELDS.filter (fun f => (alookup row f).isSome)) STANDARD_FIELDS :=
      List.filter_sublist _
    have heq2 := hsub.eq_of_length heq.symm
    have hmem : f ∈ STANDARD_FIELDS.filter (fun f => (alookup row f).isSome) := by
      rw [heq2]; exact hf
    rw [List.mem_filter, hnone] at hmem
    simp at hmem

/-- C8, witness: with only "Title" present, at least one canonical field is
absent and the warning is emitted. -/
theorem c8_witness :
    (get_fields_present [("Title", "t")]).2 = true :=
  (c8_warning_iff [("Title", "t")]).1.mpr ⟨"ID", by decide, by decide⟩

/-- C9: `clean_ticket_dict` is a pure transformation of the row; every
field other than "ID", "Created", "Modified" and "Classroom Problem Types"
passes through with its string value unchanged. -/
theorem c9_pass_through (tf : Option String) (row : RawRow) (out : CleanRow) (k : String)
    (h : clean_ticket_dict tf row = .ok out)
    (hk : k ≠ "ID" ∧ k ≠ "Created" ∧ k ≠ "Modified" ∧ k ≠ "Classroom Problem Types") :
    alookup out k = (alookup row k).map Value.str :=
  clean_ticket_dict_frame h hk

/-- C9, witness: the pass-through statement at a concrete row with a
"Title" field. -/
theorem c9_witness :
    alookup [("Title", Value.str "Broken"), ("ID", Value.int 3),
        ("Classroom Problem Types", Value.diags [])] "Title" =
      (alookup [("Title", "Broken"), ("ID", "3")] "Title").map Value.str :=
  c9_pass_through none [("Title", "Broken"), ("ID", "3")]
    [("Title", Value.str "Broken"), ("ID", Value.int 3),
      ("Classroom Problem Types", Value.diags [])] "Title"
    (by decide) (by decide)

/-- C10: splitting a "Classroom Problem Types" cell on the literal `", "`
delimiter and mapping every token to its `Diagnosis` succeeds only on
all-canonical cells, and serializing the resulting diagnosis list back to
the `", "`-joined form under the canonical enum-to-string mapping
reproduces the original string, token order preserved. -/
theorem c10_round_trip (s : String) (ds : List Diagnosis)
    (h : parseDiagnoses ((splitCS s.data).map (fun l => String.mk l)) = .ok ds) :
    joinDiagnoses ds = s := by
  have hmap := parseDiagnoses_ok_map h
  have hdata : ds.map (fun d => (Diagnosis.value d).data) = splitCS s.data := by
    have h2 := congrArg (fun l => l.map String.data) hmap
    simp only [List.map_map] at h2
    rw [show (String.data ∘ fun l => String.mk l) = id from rfl, List.map_id] at h2
    exact h2
  unfold joinDiagnoses
  rw [hdata, joinCS_splitCS]

/-- C10, witness: the round trip at the concrete cell "Projector, Audio". -/
theorem c10_witness :
    parseDiagnoses ((splitCS ("Projector, Audio").data).map (fun l => String.mk l)) =
      .ok [.projector, .audio] ∧
    joinDiagnoses [.projector, .audio] = "Projector, Audio" :=
  ⟨by decide, c10_round_trip "Projector, Audio" [.projector, .audio] (by decide)⟩

end Tdxplot
